import Mathlib

set_option maxRecDepth 10000

/-!
# Verification of the Headshot Hero client (src/index.tsx)

A shallow embedding of the client-side orchestration layer: prompt
construction, response image-part extraction, session/view state
transitions, and the enable/disable discipline of the triggering
controls.  Strings are embedded as Lean `String`s; the JavaScript
whitespace class `\s` is embedded as `isJsWS`; the asynchronous
network call is embedded as an `Except` parameter supplied by the
environment; DOM element properties are fields of an explicit
`AppState` record.
-/

/-! ## Whitespace, `trim` and `replace(/\s+/g, ' ')` -/

/-- The JavaScript `\s` character class (ECMA-262 WhiteSpace and
LineTerminator): tab, LF, VT, FF, CR, space, NBSP, Ogham space,
the U+2000–U+200A range, LS, PS, NNBSP, MMSP, ideographic space, BOM. -/
def isJsWS (c : Char) : Bool :=
  c.val = 0x09 || c.val = 0x0a || c.val = 0x0b || c.val = 0x0c || c.val = 0x0d ||
  c.val = 0x20 || c.val = 0xa0 || c.val = 0x1680 ||
  (0x2000 ≤ c.val && c.val ≤ 0x200a) ||
  c.val = 0x2028 || c.val = 0x2029 || c.val = 0x202f || c.val = 0x205f ||
  c.val = 0x3000 || c.val = 0xfeff

/-- `String.prototype.trim` on the character list: drop `\s` characters
from both ends. -/
def trimChars (l : List Char) : List Char :=
  ((l.dropWhile isJsWS).reverse.dropWhile isJsWS).reverse

/-- `dropWhile` never lengthens a list (used for termination below). -/
theorem dropWhile_length_le {α : Type} (p : α → Bool) :
    ∀ l : List α, (l.dropWhile p).length ≤ l.length
  | [] => Nat.le_refl _
  | a :: l => by
    rw [List.dropWhile_cons]
    by_cases h : p a = true
    · simp only [h, if_true]
      exact Nat.le_succ_of_le (dropWhile_length_le p l)
    · simp [h]

/-- Collapse each maximal run of `p`-characters to one space. -/
def collapseWith (p : Char → Bool) : List Char → List Char
  | [] => []
  | c :: r =>
    if p c then ' ' :: collapseWith p (r.dropWhile p)
    else c :: collapseWith p r
termination_by l => l.length
decreasing_by
  · exact Nat.lt_succ_of_le (dropWhile_length_le p r)
  · exact Nat.lt_succ_self _

/-- `replace(/\s+/g, ' ')` on the character list: each maximal run of
`\s` characters becomes one space. -/
def collapseChars (l : List Char) : List Char := collapseWith isJsWS l

/-- `s.trim().replace(/\s+/g, ' ')`, the normalization both prompt
builders apply before transmission (src/index.tsx:130, 208). -/
def normalizeWS (s : String) : String :=
  ⟨collapseChars (trimChars s.data)⟩

/-- `String.prototype.trim` as a `String` operation, used for
`customViewInput.value.trim()` (src/index.tsx:197). -/
def trimJs (s : String) : String :=
  ⟨trimChars s.data⟩

/-- The first character, when there is one, is not `\s`. -/
def headNonWS : List Char → Bool
  | [] => true
  | c :: _ => !isJsWS c

/-- No two adjacent `\s` characters. -/
def noRun : List Char → Bool
  | a :: b :: r => (!(isJsWS a && isJsWS b)) && noRun (b :: r)
  | _ => true

/-- Every whitespace character is a plain space, no two are adjacent,
and the last character (if any) is not whitespace. -/
def spaceNormal (l : List Char) : Bool :=
  l.all (fun c => !isJsWS c || c = ' ') && noRun l && headNonWS l.reverse

/-- A nonempty phrase whose only whitespace is single interior spaces:
the shape of a human-readable dropdown option value. -/
def tidy (l : List Char) : Bool :=
  !l.isEmpty && headNonWS l && spaceNormal l

/-! ## Data model -/

/-- An image payload: base64 data plus MIME type.  The shape of the
`uploadedImage` / `currentResultImage` state slots (src/index.tsx:41-42). -/
structure ImagePayload where
  base64 : String
  mimeType : String
  deriving Repr, DecidableEq

/-- The `inlineData` field of a response part: raw data plus an
optional MIME type (the server may leave it unspecified). -/
structure InlineData where
  data : String
  mimeType : Option String
  deriving Repr, DecidableEq

/-- A response content part: it may carry inline binary data. -/
structure RespPart where
  inlineData : Option InlineData
  deriving Repr, DecidableEq

/-- A candidate's content: an optional ordered list of parts. -/
structure RespContent where
  parts : Option (List RespPart)
  deriving Repr, DecidableEq

/-- A response candidate. -/
structure Candidate where
  content : Option RespContent
  deriving Repr, DecidableEq

/-- A generation response: an optional list of candidates. -/
structure GenResponse where
  candidates : Option (List Candidate)
  deriving Repr, DecidableEq

/-- The view state: exactly one of the result-panel regions is shown
(src/index.tsx:90-95). -/
inductive View where
  | placeholder
  | loading
  | result
  | error
  deriving Repr, DecidableEq

/-- The application state: the two session-state slots, the view
state, and the DOM element properties the handlers read or write. -/
structure AppState where
  uploadedImage : Option ImagePayload
  currentResultImage : Option ImagePayload
  view : View
  errorMessage : String
  generateBtnDisabled : Bool
  regenerateBtnDisabled : Bool
  imageUploadValue : String
  imagePreviewSrc : String
  imagePreviewContainerHidden : Bool
  resultImageSrc : String
  downloadBtnHref : String
  outfitValue : String
  hatValue : String
  backgroundValue : String
  lightingValue : String
  viewSelectValue : String
  customViewValue : String
  previewModalOpen : Bool
  deriving Repr, DecidableEq

/-! ## User-visible messages (string literals of src/index.tsx) -/

/-- Precondition message of `generateHeadshot` (src/index.tsx:110). -/
def msgUploadFirst : String := "Please upload an image first."

/-- Read-failure message of `handleImageUpload` (src/index.tsx:81). -/
def msgReadFail : String := "Could not read the selected file. Please try another image."

/-- Transport-failure message of `generateHeadshot` (src/index.tsx:172). -/
def msgGenTransport : String := "An error occurred while generating the headshot. Please try again."

/-- Empty-response message of `generateHeadshot` (src/index.tsx:167). -/
def msgGenNoImage : String :=
  "The model did not return an image. Please try again with a different photo or prompt."

/-- Precondition message of `regenerateView` (src/index.tsx:184). -/
def msgRegenNoBase : String := "No image to regenerate. Please generate a headshot first."

/-- Transport-failure message of `regenerateView` (src/index.tsx:249). -/
def msgRegenTransport : String :=
  "An error occurred while regenerating the headshot. Please try again."

/-- Empty-response message of `regenerateView` (src/index.tsx:244). -/
def msgRegenNoImage : String := "The model did not return a new image. Please try again."

/-! ## Prompt construction -/

/-- The headwear instruction (src/index.tsx:123-128 and 201-206, the
two occurrences are textually identical): `remove` yields a removal
sentence, `none` yields no instruction, anything else a wear sentence. -/
def hatInstruction (hatSelection : String) : String :=
  if hatSelection = "remove" then
    "If the person is wearing a hat, remove it."
  else if hatSelection ≠ "none" then
    "The person should be wearing " ++ hatSelection ++ "."
  else ""

/-- The initial-generation prompt before normalization: the template
literal of src/index.tsx:130. -/
def buildGenPromptRaw (outfit hat background lighting : String) : String :=
  "Transform this photo into a high-resolution, photorealistic professional headshot. The person should be wearing "
    ++ outfit ++ ". " ++ hatInstruction hat
    ++ " The background should be " ++ background
    ++ ". The lighting should be " ++ lighting
    ++ ". It is critical to maintain the person\x27s exact facial features, expression, and any visible tattoos for identity consistency. Do not change their face or ethnicity."

/-- The initial-generation prompt as transmitted:
`` `...`.trim().replace(/\s+/g, ' ') `` (src/index.tsx:130). -/
def buildGenPrompt (outfit hat background lighting : String) : String :=
  normalizeWS (buildGenPromptRaw outfit hat background lighting)

/-- `customViewInput.value.trim() || viewSelect.value`
(src/index.tsx:197-199): the trimmed custom instruction when nonempty,
otherwise the predefined view selection. -/
def regenChangeInstruction (custom selectedView : String) : String :=
  let customInstruction := trimJs custom
  if customInstruction = "" then selectedView else customInstruction

/-- The regeneration prompt before normalization: the template literal
of src/index.tsx:208. -/
def buildRegenPromptRaw (outfit hat background lighting custom selectedView : String) : String :=
  "Using the provided image as a base, create a new version of this professional headshot with the following change: \""
    ++ regenChangeInstruction custom selectedView
    ++ "\". Maintain the same person, outfit (" ++ outfit
    ++ "), background (" ++ background
    ++ "), lighting (" ++ lighting
    ++ "), and overall style. " ++ hatInstruction hat
    ++ " It is critical to maintain the person\x27s exact facial features for identity consistency. Do not change their face."

/-- The regeneration prompt as transmitted (src/index.tsx:208). -/
def buildRegenPrompt (outfit hat background lighting custom selectedView : String) : String :=
  normalizeWS (buildRegenPromptRaw outfit hat background lighting custom selectedView)

/-! ## View transitions and handlers -/

/-- `showView` (src/index.tsx:90-95): shows exactly the named region. -/
def showView (s : AppState) (v : View) : AppState :=
  { s with view := v }

/-- `showError` (src/index.tsx:100-103): sets the message and shows
the error region. -/
def showError (s : AppState) (message : String) : AppState :=
  showView { s with errorMessage := message } View.error

/-- A `data:` URI (src/index.tsx:76, 162, 239). -/
def dataUri (mimeType base64 : String) : String :=
  "data:" ++ mimeType ++ ";base64," ++ base64

/-- `resetToInitialState` (src/index.tsx:259-269); `closePreviewModal`
is inlined as the final field update. -/
def resetToInitialState (s : AppState) : AppState :=
  { s with view := View.placeholder,
           imageUploadValue := "",
           uploadedImage := none,
           currentResultImage := none,
           imagePreviewContainerHidden := true,
           imagePreviewSrc := "#",
           generateBtnDisabled := true,
           customViewValue := "",
           previewModalOpen := false }

/-- `handleImageUpload` (src/index.tsx:69-85).  `fileSelected` embeds
`target.files?.[0]` being present; `read` embeds the settled
`fileToBase64` promise (`Except.error` is a `ReadError`). -/
def handleImageUpload (s : AppState) (fileSelected : Bool)
    (read : Except Unit ImagePayload) : AppState :=
  if fileSelected then
    match read with
    | .ok img =>
      { s with uploadedImage := some img,
               imagePreviewSrc := dataUri img.mimeType img.base64,
               imagePreviewContainerHidden := false,
               generateBtnDisabled := false }
    | .error _ => resetToInitialState (showError s msgReadFail)
  else s

/-- `response.candidates?.[0]?.content?.parts?.find(part => part.inlineData)`
(src/index.tsx:154 and 231). -/
def findImagePart (r : GenResponse) : Option RespPart :=
  (((r.candidates.bind List.head?).bind Candidate.content).bind RespContent.parts).bind
    (fun ps => ps.find? fun p => p.inlineData.isSome)

/-- The `try`/`catch` body shared verbatim by `generateHeadshot` and
`regenerateView` (src/index.tsx:152-172 and 230-249), from the point
the response settles: on success extract the first inline-image part
and show the result, else show the empty-response message; on a
transport error show the transport message. -/
def applyResponse (s : AppState) (net : Except Unit GenResponse)
    (noImageMsg transportMsg : String) : AppState :=
  match net with
  | .error _ => showError s transportMsg
  | .ok r =>
    match findImagePart r with
    | some p =>
      match p.inlineData with
      | some d =>
        let mimeType := d.mimeType.getD "image/png"
        let imageUrl := dataUri mimeType d.data
        { s with currentResultImage := some ⟨d.data, mimeType⟩,
                 resultImageSrc := imageUrl,
                 downloadBtnHref := imageUrl,
                 view := View.result }
      | none => showError s noImageMsg
    | none => showError s noImageMsg

/-- The `finally` block of both request handlers (src/index.tsx:173-176
and 250-253): re-enable both triggering controls. -/
def finalizeButtons (s : AppState) : AppState :=
  { s with generateBtnDisabled := false, regenerateBtnDisabled := false }

/-- What a request handler produces: the final state, whether the
generation endpoint was contacted, and — when it was — the prompt and
image sent and the state at the moment the request went out. -/
structure GenOutcome where
  state : AppState
  called : Bool
  sentPrompt : Option String
  sentImage : Option ImagePayload
  inFlight : Option AppState
  deriving Repr

/-- `generateHeadshot` (src/index.tsx:108-177).  `net` embeds the
settled `ai.models.generateContent` promise (`Except.error` is a
`TransportError`). -/
def generateHeadshot (s : AppState) (net : Except Unit GenResponse) : GenOutcome :=
  match s.uploadedImage with
  | none =>
    { state := showError s msgUploadFirst, called := false,
      sentPrompt := none, sentImage := none, inFlight := none }
  | some up =>
    let mid := { showView s View.loading with
                   generateBtnDisabled := true, regenerateBtnDisabled := true }
    let prompt := buildGenPrompt s.outfitValue s.hatValue s.backgroundValue s.lightingValue
    { state := finalizeButtons (applyResponse mid net msgGenNoImage msgGenTransport),
      called := true, sentPrompt := some prompt, sentImage := some up,
      inFlight := some mid }

/-- `regenerateView` (src/index.tsx:182-254): like `generateHeadshot`
but requiring a current result, which is sent as the base image, with
the change instruction embedded in the prompt. -/
def regenerateView (s : AppState) (net : Except Unit GenResponse) : GenOutcome :=
  match s.currentResultImage with
  | none =>
    { state := showError s msgRegenNoBase, called := false,
      sentPrompt := none, sentImage := none, inFlight := none }
  | some cur =>
    let mid := { showView s View.loading with
                   generateBtnDisabled := true, regenerateBtnDisabled := true }
    let prompt := buildRegenPrompt s.outfitValue s.hatValue s.backgroundValue
                    s.lightingValue s.customViewValue s.viewSelectValue
    { state := finalizeButtons (applyResponse mid net msgRegenNoImage msgRegenTransport),
      called := true, sentPrompt := some prompt, sentImage := some cur,
      inFlight := some mid }

/-! ## Lemmas about whitespace normalization -/

theorem collapseChars_nil : collapseChars [] = [] := by
  unfold collapseChars
  rw [collapseWith.eq_1]

theorem collapseChars_cons_ws {c : Char} (r : List Char) (h : isJsWS c = true) :
    collapseChars (c :: r) = ' ' :: collapseChars (r.dropWhile isJsWS) := by
  unfold collapseChars
  rw [collapseWith.eq_2, if_pos h]

theorem collapseChars_cons_nws {c : Char} (r : List Char) (h : isJsWS c = false) :
    collapseChars (c :: r) = c :: collapseChars r := by
  unfold collapseChars
  rw [collapseWith.eq_2, if_neg (by simp [h])]

theorem dropWhile_of_headNonWS {l : List Char} (h : headNonWS l = true) :
    l.dropWhile isJsWS = l := by
  cases l with
  | nil => rfl
  | cons c r =>
    simp only [headNonWS, Bool.not_eq_true'] at h
    rw [List.dropWhile_cons, if_neg (by simp [h])]

theorem headNonWS_dropWhile (l : List Char) :
    headNonWS (l.dropWhile isJsWS) = true := by
  induction l with
  | nil => rfl
  | cons c r ih =>
    rw [List.dropWhile_cons]
    by_cases h : isJsWS c = true
    · rw [if_pos h]; exact ih
    · rw [if_neg h]; simpa [headNonWS] using h

theorem headNonWS_append {a : List Char} (b : List Char) (ha : a ≠ []) :
    headNonWS (a ++ b) = headNonWS a := by
  cases a with
  | nil => exact absurd rfl ha
  | cons c r => rfl

theorem dropWhile_ws_append (a : List Char) {b : List Char} (hb : headNonWS b = true) :
    (a ++ b).dropWhile isJsWS = a.dropWhile isJsWS ++ b := by
  induction a with
  | nil => simpa using dropWhile_of_headNonWS hb
  | cons c r ih =>
    rw [List.cons_append, List.dropWhile_cons, List.dropWhile_cons]
    by_cases h : isJsWS c = true
    · rw [if_pos h, if_pos h]; exact ih
    · rw [if_neg h, if_neg h, List.cons_append]

theorem collapse_append {b : List Char} (hb : headNonWS b = true) :
    (a : List Char) → collapseChars (a ++ b) = collapseChars a ++ collapseChars b
  | [] => by rw [List.nil_append, collapseChars_nil, List.nil_append]
  | c :: a => by
    by_cases h : isJsWS c = true
    · rw [List.cons_append, collapseChars_cons_ws _ h, collapseChars_cons_ws a h,
          dropWhile_ws_append a hb, collapse_append hb (a.dropWhile isJsWS),
          List.cons_append]
    · have h' : isJsWS c = false := by simpa using h
      rw [List.cons_append, collapseChars_cons_nws _ h', collapseChars_cons_nws a h',
          collapse_append hb a, List.cons_append]
termination_by a => a.length
decreasing_by
  · exact Nat.lt_succ_of_le (dropWhile_length_le isJsWS a)
  · exact Nat.lt_succ_self _

theorem noRun_cons {x : Char} {m : List Char}
    (hm : noRun m = true) (hx : isJsWS x = false ∨ headNonWS m = true) :
    noRun (x :: m) = true := by
  cases m with
  | nil => rfl
  | cons d r =>
    simp only [noRun, Bool.and_eq_true, Bool.not_eq_true', Bool.and_eq_false_iff]
    refine ⟨?_, hm⟩
    rcases hx with hx | hx
    · exact Or.inl hx
    · simp only [headNonWS, Bool.not_eq_true'] at hx
      exact Or.inr hx

theorem headNonWS_collapse {l : List Char} (h : headNonWS l = true) :
    headNonWS (collapseChars l) = true := by
  cases l with
  | nil => rw [collapseChars_nil]; rfl
  | cons c r =>
    simp only [headNonWS, Bool.not_eq_true'] at h
    rw [collapseChars_cons_nws _ h]
    simpa [headNonWS] using h

/-- The output of the collapse step never has two adjacent whitespace
characters. -/
theorem noRun_collapse : (l : List Char) → noRun (collapseChars l) = true
  | [] => by rw [collapseChars_nil]; rfl
  | c :: r => by
    by_cases h : isJsWS c = true
    · rw [collapseChars_cons_ws r h]
      refine noRun_cons (noRun_collapse (r.dropWhile isJsWS)) (Or.inr ?_)
      exact headNonWS_collapse (headNonWS_dropWhile r)
    · have h' : isJsWS c = false := by simpa using h
      rw [collapseChars_cons_nws r h']
      exact noRun_cons (noRun_collapse r) (Or.inl h')
termination_by l => l.length
decreasing_by
  · exact Nat.lt_succ_of_le (dropWhile_length_le isJsWS _)
  · exact Nat.lt_succ_self _

theorem spaceNormal_of_cons {c : Char} {v : List Char}
    (h : spaceNormal (c :: v) = true) : spaceNormal v = true := by
  simp only [spaceNormal, Bool.and_eq_true] at h ⊢
  obtain ⟨⟨hall, hrun⟩, hlast⟩ := h
  refine ⟨⟨?_, ?_⟩, ?_⟩
  · simp only [List.all_cons, Bool.and_eq_true] at hall
    exact hall.2
  · cases v with
    | nil => rfl
    | cons d r =>
      simp only [noRun, Bool.and_eq_true] at hrun
      exact hrun.2
  · cases v with
    | nil => rfl
    | cons d r =>
      rw [List.reverse_cons] at hlast
      rw [← headNonWS_append [c] (by simp)]
      exact hlast

/-- A space-normal block passes through the collapse step verbatim. -/
theorem collapse_spaceNormal {v : List Char} (hv : spaceNormal v = true) :
    ∀ b, collapseChars (v ++ b) = v ++ collapseChars b := by
  induction v with
  | nil => intro b; rfl
  | cons c v ih =>
    intro b
    have hv' := spaceNormal_of_cons hv
    simp only [spaceNormal, Bool.and_eq_true] at hv
    obtain ⟨⟨hall, hrun⟩, hlast⟩ := hv
    by_cases h : isJsWS c = true
    · have hsp : c = ' ' := by
        simp only [List.all_cons, Bool.and_eq_true, Bool.or_eq_true,
          Bool.not_eq_true', decide_eq_true_eq] at hall
        rcases hall.1 with h' | h'
        · rw [h] at h'; cases h'
        · exact h'
      cases v with
      | nil =>
        exfalso
        simp only [List.reverse_cons, List.reverse_nil, List.nil_append,
          headNonWS, Bool.not_eq_true'] at hlast
        rw [h] at hlast; cases hlast
      | cons d r =>
        have hd : isJsWS d = false := by
          simp only [noRun, Bool.and_eq_true, Bool.not_eq_true',
            Bool.and_eq_false_iff] at hrun
          rcases hrun.1 with h' | h'
          · rw [h] at h'; cases h'
          · exact h'
        rw [List.cons_append, collapseChars_cons_ws _ h,
            dropWhile_of_headNonWS (l := (d :: r) ++ b) (by simpa [headNonWS] using hd),
            ih hv' b, hsp]
        rfl
    · have h' : isJsWS c = false := by simpa using h
      rw [List.cons_append, collapseChars_cons_nws _ h', ih hv' b]
      rfl

/-- The decomposition of the collapse step around a space-normal block
with a non-whitespace character on its right boundary. -/
theorem collapse_split {v : List Char} (A B : List Char) (hne : v ≠ [])
    (h1 : headNonWS v = true) (h2 : spaceNormal v = true) :
    collapseChars (A ++ (v ++ B)) = collapseChars A ++ (v ++ collapseChars B) := by
  rw [collapse_append (by rw [headNonWS_append B hne]; exact h1) A,
      collapse_spaceNormal h2 B]

/-- A nonempty space-normal block with non-whitespace head survives
collapsing as a verbatim infix. -/
theorem infix_collapse {v : List Char} (A B : List Char) (hne : v ≠ [])
    (h1 : headNonWS v = true) (h2 : spaceNormal v = true) :
    v <:+: collapseChars (A ++ (v ++ B)) :=
  ⟨collapseChars A, collapseChars B, by
    rw [collapse_split A B hne h1 h2, List.append_assoc]⟩

theorem trimChars_of_ends {l : List Char} (h1 : headNonWS l = true)
    (h2 : headNonWS l.reverse = true) : trimChars l = l := by
  rw [trimChars, dropWhile_of_headNonWS h1, dropWhile_of_headNonWS h2,
      List.reverse_reverse]

theorem trimChars_of_all_ws {l : List Char} (h : ∀ c ∈ l, isJsWS c = true) :
    trimChars l = [] := by
  rw [trimChars, List.dropWhile_eq_nil_iff.mpr h]
  rfl

/-! ## Template segments of the two prompt literals -/

/-- Generation template up to the outfit value. -/
def genT0 : String := "Transform this photo into a high-resolution, photorealistic professional headshot. The person should be wearing "

/-- Generation template between outfit and headwear instruction. -/
def genT1 : String := ". "

/-- Generation template between headwear instruction and background. -/
def genT2 : String := " The background should be "

/-- Generation template between background and lighting. -/
def genT3 : String := ". The lighting should be "

/-- Generation template after the lighting value. -/
def genT4 : String := ". It is critical to maintain the person\x27s exact facial features, expression, and any visible tattoos for identity consistency. Do not change their face or ethnicity."

/-- Regeneration template up to the change instruction. -/
def regT0 : String := "Using the provided image as a base, create a new version of this professional headshot with the following change: \""

/-- Regeneration template between change instruction and outfit. -/
def regT1 : String := "\". Maintain the same person, outfit ("

/-- Regeneration template between outfit and background. -/
def regT2 : String := "), background ("

/-- Regeneration template between background and lighting. -/
def regT3 : String := "), lighting ("

/-- Regeneration template between lighting and headwear instruction. -/
def regT4 : String := "), and overall style. "

/-- Regeneration template after the headwear instruction. -/
def regT5 : String := " It is critical to maintain the person\x27s exact facial features for identity consistency. Do not change their face."

/-- The leading sentence of the wear-headwear instruction. -/
def wearLit : String := "The person should be wearing "

/-! ## Support lemmas for whitespace claims -/

theorem tidy_parts {v : List Char} (h : tidy v = true) :
    v ≠ [] ∧ headNonWS v = true ∧ spaceNormal v = true := by
  simp only [tidy, Bool.and_eq_true, Bool.not_eq_true'] at h
  refine ⟨?_, h.1.2, h.2⟩
  intro hemp
  rw [hemp] at h
  exact absurd h.1.1 (by simp [List.isEmpty])

/-- A tidy block survives collapsing as a verbatim infix, with the
position given by an explicit decomposition. -/
theorem infix_collapse_of_eq {l v : List Char} (A B : List Char)
    (hl : l = A ++ (v ++ B)) (ht : tidy v = true) :
    v <:+: collapseChars l := by
  obtain ⟨hne, h1, h2⟩ := tidy_parts ht
  rw [hl]
  exact infix_collapse A B hne h1 h2

theorem noRun_append {b : List Char} (hb : noRun b = true) :
    ∀ a : List Char, noRun a = true →
      (headNonWS a.reverse = true ∨ headNonWS b = true) → noRun (a ++ b) = true
  | [], _, _ => hb
  | [x], _, hj => by
    rw [List.singleton_append]
    refine noRun_cons hb ?_
    rcases hj with hj | hj
    · exact Or.inl (by simpa [headNonWS] using hj)
    · exact Or.inr hj
  | x :: y :: t, ha, hj => by
    have ha' : noRun (y :: t) = true := by
      simp only [noRun, Bool.and_eq_true] at ha
      exact ha.2
    have hxy : (!(isJsWS x && isJsWS y)) = true := by
      simp only [noRun, Bool.and_eq_true] at ha
      exact ha.1
    have hj' : headNonWS (y :: t).reverse = true ∨ headNonWS b = true := by
      rcases hj with hj | hj
      · left
        rw [List.reverse_cons] at hj
        rw [← headNonWS_append [x] (by simp)]
        exact hj
      · exact Or.inr hj
    have ih := noRun_append hb (y :: t) ha' hj'
    rw [List.cons_append]
    cases hys : isJsWS y with
    | true =>
      refine noRun_cons ih (Or.inl ?_)
      simp only [hys, Bool.and_true, Bool.not_eq_true'] at hxy
      exact hxy
    | false =>
      refine noRun_cons ih (Or.inr ?_)
      rw [List.cons_append]
      simpa [headNonWS] using hys

/-- Appending onto a block whose whitespace is single spaces preserves
space-normality, provided the junction has a non-whitespace side. -/
theorem spaceNormal_append {a b : List Char}
    (haAll : (a.all fun c => !isJsWS c || c = ' ') = true) (haRun : noRun a = true)
    (hb : spaceNormal b = true)
    (hj : headNonWS a.reverse = true ∨ headNonWS b = true)
    (hbne : b ≠ []) : spaceNormal (a ++ b) = true := by
  simp only [spaceNormal, Bool.and_eq_true] at hb ⊢
  obtain ⟨⟨hbAll, hbRun⟩, hbLast⟩ := hb
  refine ⟨⟨?_, ?_⟩, ?_⟩
  · rw [List.all_append, haAll, hbAll]
    rfl
  · exact noRun_append hbRun a haRun hj
  · rw [List.reverse_append, headNonWS_append a.reverse ?_]
    · exact hbLast
    · intro hemp
      exact hbne (by simpa using congrArg List.reverse hemp)

/-- Collapsing preserves a non-whitespace final character. -/
theorem collapse_lastNonWS {l : List Char} (h : headNonWS l.reverse = true) :
    headNonWS (collapseChars l).reverse = true := by
  cases hr : l.reverse with
  | nil =>
    have hl : l = [] := by simpa using congrArg List.reverse hr
    rw [hl, collapseChars_nil]
    rfl
  | cons c t =>
    have hl : l = t.reverse ++ ([c] ++ []) := by
      rw [List.append_nil, ← List.reverse_reverse l, hr, List.reverse_cons]
    have hc : isJsWS c = false := by
      rw [hr] at h
      simpa [headNonWS] using h
    rw [hl, collapse_split t.reverse [] (by simp) (by simpa [headNonWS] using hc)
          (by simp [spaceNormal, noRun, headNonWS, List.all_cons, hc]),
        collapseChars_nil, List.append_nil, List.reverse_append]
    simpa [headNonWS] using hc

/-- A tidy block placed at an explicit position of a string with
non-whitespace first and last characters appears verbatim in the
string's whitespace normalization. -/
theorem infix_normalize {s : String} {v : List Char} (A B : List Char)
    (hs : s.data = A ++ (v ++ B))
    (hhead : headNonWS s.data = true) (hlast : headNonWS s.data.reverse = true)
    (ht : tidy v = true) : v <:+: (normalizeWS s).data := by
  show v <:+: collapseChars (trimChars s.data)
  rw [trimChars_of_ends hhead hlast]
  exact infix_collapse_of_eq A B hs ht

theorem genRaw_decomp_outfit (o h b l : String) :
    (buildGenPromptRaw o h b l).data =
      genT0.data ++ (o.data ++
        (genT1 ++ hatInstruction h ++ genT2 ++ b ++ genT3 ++ l ++ genT4).data) := by
  simp only [buildGenPromptRaw, genT0, genT1, genT2, genT3, genT4,
    String.data_append, List.append_assoc]

theorem genRaw_decomp_background (o h b l : String) :
    (buildGenPromptRaw o h b l).data =
      (genT0 ++ o ++ genT1 ++ hatInstruction h ++ genT2).data ++ (b.data ++
        (genT3 ++ l ++ genT4).data) := by
  simp only [buildGenPromptRaw, genT0, genT1, genT2, genT3, genT4,
    String.data_append, List.append_assoc]

theorem genRaw_decomp_lighting (o h b l : String) :
    (buildGenPromptRaw o h b l).data =
      (genT0 ++ o ++ genT1 ++ hatInstruction h ++ genT2 ++ b ++ genT3).data ++ (l.data ++
        genT4.data) := by
  simp only [buildGenPromptRaw, genT0, genT1, genT2, genT3, genT4,
    String.data_append, List.append_assoc]

theorem genRaw_decomp_hat (o h b l : String) :
    (buildGenPromptRaw o h b l).data =
      (genT0 ++ o ++ genT1).data ++ ((hatInstruction h).data ++
        (genT2 ++ b ++ genT3 ++ l ++ genT4).data) := by
  simp only [buildGenPromptRaw, genT0, genT1, genT2, genT3, genT4,
    String.data_append, List.append_assoc]

theorem genRaw_ends (o h b l : String) :
    headNonWS (buildGenPromptRaw o h b l).data = true ∧
    headNonWS (buildGenPromptRaw o h b l).data.reverse = true := by
  constructor
  · rw [genRaw_decomp_outfit, headNonWS_append _ (by decide)]
    decide
  · rw [genRaw_decomp_lighting, ← List.append_assoc, List.reverse_append,
        headNonWS_append _ (by decide)]
    decide

theorem genPrompt_data (o h b l : String) :
    (buildGenPrompt o h b l).data = collapseChars (buildGenPromptRaw o h b l).data := by
  show collapseChars (trimChars _) = _
  rw [trimChars_of_ends (genRaw_ends o h b l).1 (genRaw_ends o h b l).2]

theorem regenRaw_decomp_change (o h b l c v : String) :
    (buildRegenPromptRaw o h b l c v).data =
      regT0.data ++ ((regenChangeInstruction c v).data ++
        (regT1 ++ o ++ regT2 ++ b ++ regT3 ++ l ++ regT4 ++ hatInstruction h ++ regT5).data) := by
  simp only [buildRegenPromptRaw, regT0, regT1, regT2, regT3, regT4, regT5,
    String.data_append, List.append_assoc]

theorem regenRaw_decomp_hat (o h b l c v : String) :
    (buildRegenPromptRaw o h b l c v).data =
      (regT0 ++ regenChangeInstruction c v ++ regT1 ++ o ++ regT2 ++ b ++ regT3 ++ l ++ regT4).data
        ++ ((hatInstruction h).data ++ regT5.data) := by
  simp only [buildRegenPromptRaw, regT0, regT1, regT2, regT3, regT4, regT5,
    String.data_append, List.append_assoc]

theorem regenRaw_ends (o h b l c v : String) :
    headNonWS (buildRegenPromptRaw o h b l c v).data = true ∧
    headNonWS (buildRegenPromptRaw o h b l c v).data.reverse = true := by
  constructor
  · rw [regenRaw_decomp_change, headNonWS_append _ (by decide)]
    decide
  · rw [regenRaw_decomp_hat, ← List.append_assoc, List.reverse_append,
        headNonWS_append _ (by decide)]
    decide

theorem regenPrompt_data (o h b l c v : String) :
    (buildRegenPrompt o h b l c v).data =
      collapseChars (buildRegenPromptRaw o h b l c v).data := by
  show collapseChars (trimChars _) = _
  rw [trimChars_of_ends (regenRaw_ends o h b l c v).1 (regenRaw_ends o h b l c v).2]

/-! ## Support lemmas for response extraction -/

theorem find?_first {α : Type} (p : α → Bool) (pre post : List α) (x : α)
    (hpre : ∀ q ∈ pre, p q = false) (hx : p x = true) :
    (pre ++ x :: post).find? p = some x := by
  induction pre with
  | nil => rw [List.nil_append, List.find?_cons_of_pos _ hx]
  | cons a t ih =>
    rw [List.cons_append, List.find?_cons_of_neg _ (by simp [hpre a (List.mem_cons_self a t)])]
    exact ih fun q hq => hpre q (List.mem_cons_of_mem a hq)

/-- The extraction step returns exactly the first part carrying inline
data when the first candidate's part list splits around one. -/
theorem findImagePart_of_first {r : GenResponse} {cand : Candidate} {cs : List Candidate}
    {ct : RespContent} {ps pre post : List RespPart} {p : RespPart} {d : InlineData}
    (hr : r.candidates = some (cand :: cs)) (hct : cand.content = some ct)
    (hps : ct.parts = some ps) (hsplit : ps = pre ++ p :: post)
    (hpre : ∀ q ∈ pre, q.inlineData = none) (hd : p.inlineData = some d) :
    findImagePart r = some p := by
  unfold findImagePart
  rw [hr]
  simp only [Option.some_bind, List.head?_cons, hct, hps, hsplit]
  exact find?_first _ pre post p
    (fun q hq => by rw [hpre q hq]; rfl) (by rw [hd]; rfl)

/-- The extraction step returns nothing when no part of any candidate
carries inline data. -/
theorem findImagePart_none {r : GenResponse}
    (h : ∀ cand ∈ r.candidates.getD [], ∀ ct, cand.content = some ct →
         ∀ ps, ct.parts = some ps → ∀ q ∈ ps, q.inlineData = none) :
    findImagePart r = none := by
  unfold findImagePart
  cases hr : r.candidates with
  | none => rfl
  | some cs =>
    cases cs with
    | nil => rfl
    | cons cand rest =>
      have hc := h cand (by rw [hr]; exact List.mem_cons_self _ _)
      simp only [Option.some_bind, List.head?_cons]
      cases hct : cand.content with
      | none => rfl
      | some ct =>
        simp only [Option.some_bind]
        cases hps : ct.parts with
        | none => rfl
        | some ps =>
          simp only [Option.some_bind]
          rw [List.find?_eq_none.mpr]
          intro q hq
          rw [hc ct hct ps hps q hq]
          simp

/-! ## Witness fixtures -/

/-- A concrete application state with both session slots occupied. -/
def wState : AppState :=
  { uploadedImage := some ⟨"u64", "image/jpeg"⟩,
    currentResultImage := some ⟨"c64", "image/png"⟩,
    view := View.result, errorMessage := "",
    generateBtnDisabled := false, regenerateBtnDisabled := false,
    imageUploadValue := "x", imagePreviewSrc := "", imagePreviewContainerHidden := false,
    resultImageSrc := "", downloadBtnHref := "",
    outfitValue := "a dark suit", hatValue := "none",
    backgroundValue := "an office", lightingValue := "soft studio lighting",
    viewSelectValue := "a front-facing view", customViewValue := "",
    previewModalOpen := false }

/-- A concrete application state with both session slots empty. -/
def wEmptyState : AppState :=
  { wState with uploadedImage := none, currentResultImage := none,
                view := View.placeholder }

/-- A concrete response whose first candidate has a non-image part
followed by an inline-image part with no MIME type. -/
def wResp : GenResponse :=
  ⟨some [⟨some ⟨some [⟨none⟩, ⟨some ⟨"img64", none⟩⟩]⟩⟩]⟩

/-- A concrete response with one candidate and no inline-image part. -/
def wRespEmpty : GenResponse :=
  ⟨some [⟨some ⟨some [⟨none⟩]⟩⟩]⟩

/-! ## Further prompt support -/

/-- The wear-headwear sentence built from a tidy headwear value is tidy. -/
theorem tidy_wear {hat : String} (ht : tidy hat.data = true) :
    tidy ("The person should be wearing " ++ hat ++ ".").data = true := by
  obtain ⟨hne, hhead, hsn⟩ := tidy_parts ht
  have hAll : (hat.data.all fun c => !isJsWS c || c = ' ') = true := by
    simp only [spaceNormal, Bool.and_eq_true] at hsn
    exact hsn.1.1
  have hRun : noRun hat.data = true := by
    simp only [spaceNormal, Bool.and_eq_true] at hsn
    exact hsn.1.2
  have hdata : ("The person should be wearing " ++ hat ++ ".").data
      = wearLit.data ++ (hat.data ++ (".").data) := by
    simp only [wearLit, String.data_append, List.append_assoc]
  have hsb : spaceNormal (hat.data ++ (".").data) = true :=
    spaceNormal_append hAll hRun (by decide) (Or.inr (by decide)) (by decide)
  have hsall : spaceNormal (wearLit.data ++ (hat.data ++ (".").data)) = true := by
    refine spaceNormal_append (by decide) (by decide) hsb (Or.inr ?_) ?_
    · rw [headNonWS_append _ hne]
      exact hhead
    · intro hemp
      rcases List.append_eq_nil.mp hemp with ⟨h1, _⟩
      exact hne h1
  rw [tidy, hdata, Bool.and_eq_true, Bool.and_eq_true]
  refine ⟨⟨?_, ?_⟩, hsall⟩
  · cases hw : wearLit.data with
    | nil => exact absurd hw (by decide)
    | cons c t => rfl
  · rw [headNonWS_append _ (by decide)]
    decide

/-- A tidy headwear instruction appears verbatim in both transmitted
prompts. -/
theorem hat_infix (o hat b l c v : String)
    (ht : tidy (hatInstruction hat).data = true) :
    (hatInstruction hat).data <:+: (buildGenPrompt o hat b l).data ∧
    (hatInstruction hat).data <:+: (buildRegenPrompt o hat b l c v).data := by
  constructor
  · rw [genPrompt_data]
    exact infix_collapse_of_eq _ _ (genRaw_decomp_hat o hat b l) ht
  · rw [regenPrompt_data]
    exact infix_collapse_of_eq _ _ (regenRaw_decomp_hat o hat b l c v) ht

/-- Trimming leaves a non-whitespace first character (or nothing). -/
theorem headNonWS_trimChars (l : List Char) : headNonWS (trimChars l) = true := by
  unfold trimChars
  have hmh : headNonWS (l.dropWhile isJsWS) = true := headNonWS_dropWhile l
  obtain ⟨t, ht⟩ := List.dropWhile_suffix (l := (l.dropWhile isJsWS).reverse) isJsWS
  cases hd : ((l.dropWhile isJsWS).reverse.dropWhile isJsWS).reverse with
  | nil => rfl
  | cons c rest =>
    have hdrev : (l.dropWhile isJsWS).reverse.dropWhile isJsWS = rest.reverse ++ [c] := by
      rw [← List.reverse_reverse ((l.dropWhile isJsWS).reverse.dropWhile isJsWS), hd,
          List.reverse_cons]
    have hm : l.dropWhile isJsWS = c :: (rest ++ t.reverse) := by
      rw [← List.reverse_reverse (l.dropWhile isJsWS), ← ht, hdrev]
      simp [List.reverse_append]
    rw [hm] at hmh
    simpa [headNonWS] using hmh

/-- A block with non-whitespace head placed before a non-whitespace
right boundary appears in the collapsed string with exactly its own
collapse applied. -/
theorem infix_collapse_of_head {l v B : List Char} (A : List Char)
    (hl : l = A ++ (v ++ B)) (hv : headNonWS v = true) (hB : headNonWS B = true) :
    collapseChars v <:+: collapseChars l := by
  cases v with
  | nil =>
    rw [collapseChars_nil]
    exact List.nil_infix
  | cons c r =>
    have hne : (c :: r) ≠ [] := by simp
    rw [hl, collapse_append (b := (c :: r) ++ B) (by rw [headNonWS_append B hne]; exact hv) A,
        collapse_append (b := B) hB (c :: r)]
    exact ⟨collapseChars A, collapseChars B, by rw [List.append_assoc]⟩

/-! ## The claims -/

/-- C1: for a generation or regeneration call whose response's first
candidate has its parts splitting as `pre ++ p :: post` with no part of
`pre` carrying inline image data and `p` carrying inline data `d` (the
first such part in order), the session state's current result is set to
exactly `d.data`, with the MIME type taken from the part or defaulting
to `"image/png"` when the part specifies none, and the view state
becomes `result`. -/
theorem spec_c1 (s : AppState) (up cur : ImagePayload) (r : GenResponse)
    (cand : Candidate) (cs : List Candidate) (ct : RespContent)
    (ps pre post : List RespPart) (p : RespPart) (d : InlineData)
    (hup : s.uploadedImage = some up) (hcur : s.currentResultImage = some cur)
    (hr : r.candidates = some (cand :: cs)) (hct : cand.content = some ct)
    (hps : ct.parts = some ps) (hsplit : ps = pre ++ p :: post)
    (hpre : ∀ q ∈ pre, q.inlineData = none) (hd : p.inlineData = some d) :
    ((generateHeadshot s (.ok r)).state.currentResultImage =
        some ⟨d.data, d.mimeType.getD "image/png"⟩ ∧
      (generateHeadshot s (.ok r)).state.view = View.result) ∧
    ((regenerateView s (.ok r)).state.currentResultImage =
        some ⟨d.data, d.mimeType.getD "image/png"⟩ ∧
      (regenerateView s (.ok r)).state.view = View.result) := by
  have hfind := findImagePart_of_first hr hct hps hsplit hpre hd
  constructor
  · unfold generateHeadshot
    rw [hup]
    simp [applyResponse, hfind, hd, finalizeButtons]
  · unfold regenerateView
    rw [hcur]
    simp [applyResponse, hfind, hd, finalizeButtons]

/-- C1 witness: the fixture response's second part is the first part
carrying inline data; it has no MIME type, so the default applies. -/
theorem spec_c1_witness :
    ((generateHeadshot wState (.ok wResp)).state.currentResultImage =
        some ⟨"img64", "image/png"⟩ ∧
      (generateHeadshot wState (.ok wResp)).state.view = View.result) ∧
    ((regenerateView wState (.ok wResp)).state.currentResultImage =
        some ⟨"img64", "image/png"⟩ ∧
      (regenerateView wState (.ok wResp)).state.view = View.result) :=
  spec_c1 wState ⟨"u64", "image/jpeg"⟩ ⟨"c64", "image/png"⟩ wResp
    ⟨some ⟨some [⟨none⟩, ⟨some ⟨"img64", none⟩⟩]⟩⟩ [] ⟨some [⟨none⟩, ⟨some ⟨"img64", none⟩⟩]⟩
    [⟨none⟩, ⟨some ⟨"img64", none⟩⟩] [⟨none⟩] [] ⟨some ⟨"img64", none⟩⟩ ⟨"img64", none⟩
    rfl rfl rfl rfl rfl rfl (by decide) rfl

/-- C2: for a generation or regeneration call whose response has no
content part carrying inline image data anywhere, the view state
becomes `error` with the respective no-image message, and the current
result field is left unchanged from its value before the call. -/
theorem spec_c2 (s : AppState) (up cur : ImagePayload) (r : GenResponse)
    (hup : s.uploadedImage = some up) (hcur : s.currentResultImage = some cur)
    (hempty : ∀ cand ∈ r.candidates.getD [], ∀ ct, cand.content = some ct →
       ∀ ps, ct.parts = some ps → ∀ q ∈ ps, q.inlineData = none) :
    ((generateHeadshot s (.ok r)).state.view = View.error ∧
      (generateHeadshot s (.ok r)).state.errorMessage = msgGenNoImage ∧
      (generateHeadshot s (.ok r)).state.currentResultImage = s.currentResultImage) ∧
    ((regenerateView s (.ok r)).state.view = View.error ∧
      (regenerateView s (.ok r)).state.errorMessage = msgRegenNoImage ∧
      (regenerateView s (.ok r)).state.currentResultImage = s.currentResultImage) := by
  have hfind := findImagePart_none hempty
  constructor
  · unfold generateHeadshot
    rw [hup]
    simp [applyResponse, hfind, finalizeButtons, showError, showView]
  · unfold regenerateView
    rw [hcur]
    simp [applyResponse, hfind, finalizeButtons, showError, showView]
    exact hcur

/-- C2 witness: a response with one candidate and one part carrying no
inline data leaves the result slot of the fixture state untouched. -/
theorem spec_c2_witness :
    ((generateHeadshot wState (.ok wRespEmpty)).state.view = View.error ∧
      (generateHeadshot wState (.ok wRespEmpty)).state.errorMessage = msgGenNoImage ∧
      (generateHeadshot wState (.ok wRespEmpty)).state.currentResultImage =
        wState.currentResultImage) ∧
    ((regenerateView wState (.ok wRespEmpty)).state.view = View.error ∧
      (regenerateView wState (.ok wRespEmpty)).state.errorMessage = msgRegenNoImage ∧
      (regenerateView wState (.ok wRespEmpty)).state.currentResultImage =
        wState.currentResultImage) :=
  spec_c2 wState ⟨"u64", "image/jpeg"⟩ ⟨"c64", "image/png"⟩ wRespEmpty
    rfl rfl (by decide)

/-- C3: generate invoked with no uploaded image, and regenerate invoked
with no current result, surface a precondition error (error view with
the respective message) and return without contacting the generation
endpoint — no call, no prompt, no image sent. -/
theorem spec_c3 (s : AppState) (net : Except Unit GenResponse) :
    (s.uploadedImage = none →
      (generateHeadshot s net).called = false ∧
      (generateHeadshot s net).sentPrompt = none ∧
      (generateHeadshot s net).sentImage = none ∧
      (generateHeadshot s net).state.view = View.error ∧
      (generateHeadshot s net).state.errorMessage = msgUploadFirst) ∧
    (s.currentResultImage = none →
      (regenerateView s net).called = false ∧
      (regenerateView s net).sentPrompt = none ∧
      (regenerateView s net).sentImage = none ∧
      (regenerateView s net).state.view = View.error ∧
      (regenerateView s net).state.errorMessage = msgRegenNoBase) := by
  constructor
  · intro h
    unfold generateHeadshot
    rw [h]
    exact ⟨rfl, rfl, rfl, rfl, rfl⟩
  · intro h
    unfold regenerateView
    rw [h]
    exact ⟨rfl, rfl, rfl, rfl, rfl⟩

/-- C3 witness: on the empty fixture state neither handler contacts the
endpoint, whatever the environment would have answered. -/
theorem spec_c3_witness :
    (generateHeadshot wEmptyState (.error ())).called = false ∧
    (regenerateView wEmptyState (.error ())).called = false :=
  ⟨((spec_c3 wEmptyState (.error ())).1 rfl).1,
   ((spec_c3 wEmptyState (.error ())).2 rfl).1⟩

/-- C4 counterexample: a ReadError in the upload handler does NOT leave
the View State Controller in the error state — `resetToInitialState`
runs after `showError` and the handler ends in `placeholder`. -/
theorem spec_c4_cex :
    (handleImageUpload wState true (.error ())).view = View.placeholder ∧
    View.placeholder ≠ View.error :=
  ⟨rfl, by decide⟩

/-- C4 as amended: every error kind is caught at its action boundary
and converted to a user-visible message, none is fatal; a
PreconditionError, TransportError or NoImageReturned leaves the error
view state with its message, while a ReadError sets the read-failure
message but the upload handler then resets the app, ending in the
placeholder view state rather than the error view state. -/
theorem spec_c4 (s : AppState) (up cur : ImagePayload) :
    ((handleImageUpload s true (.error ())).view = View.placeholder ∧
      (handleImageUpload s true (.error ())).errorMessage = msgReadFail) ∧
    (s.uploadedImage = none → ∀ net,
      (generateHeadshot s net).state.view = View.error ∧
      (generateHeadshot s net).state.errorMessage = msgUploadFirst) ∧
    (s.currentResultImage = none → ∀ net,
      (regenerateView s net).state.view = View.error ∧
      (regenerateView s net).state.errorMessage = msgRegenNoBase) ∧
    (s.uploadedImage = some up →
      (generateHeadshot s (.error ())).state.view = View.error ∧
      (generateHeadshot s (.error ())).state.errorMessage = msgGenTransport) ∧
    (s.currentResultImage = some cur →
      (regenerateView s (.error ())).state.view = View.error ∧
      (regenerateView s (.error ())).state.errorMessage = msgRegenTransport) ∧
    (s.uploadedImage = some up →
      (generateHeadshot s (.ok ⟨none⟩)).state.view = View.error ∧
      (generateHeadshot s (.ok ⟨none⟩)).state.errorMessage = msgGenNoImage) ∧
    (s.currentResultImage = some cur →
      (regenerateView s (.ok ⟨none⟩)).state.view = View.error ∧
      (regenerateView s (.ok ⟨none⟩)).state.errorMessage = msgRegenNoImage) := by
  refine ⟨⟨rfl, rfl⟩, ?_, ?_, ?_, ?_, ?_, ?_⟩
  · intro h net
    unfold generateHeadshot
    rw [h]
    exact ⟨rfl, rfl⟩
  · intro h net
    unfold regenerateView
    rw [h]
    exact ⟨rfl, rfl⟩
  · intro h
    unfold generateHeadshot
    rw [h]
    exact ⟨rfl, rfl⟩
  · intro h
    unfold regenerateView
    rw [h]
    exact ⟨rfl, rfl⟩
  · intro h
    unfold generateHeadshot
    rw [h]
    exact ⟨rfl, rfl⟩
  · intro h
    unfold regenerateView
    rw [h]
    exact ⟨rfl, rfl⟩

/-- C4 witness: the amended statement applied to the occupied fixture
state, with every precondition discharged concretely. -/
theorem spec_c4_witness :
    (handleImageUpload wState true (.error ())).errorMessage = msgReadFail ∧
    (generateHeadshot wState (.error ())).state.view = View.error ∧
    (regenerateView wState (.error ())).state.view = View.error ∧
    (generateHeadshot wState (.ok ⟨none⟩)).state.errorMessage = msgGenNoImage ∧
    (regenerateView wState (.ok ⟨none⟩)).state.errorMessage = msgRegenNoImage := by
  have h := spec_c4 wState ⟨"u64", "image/jpeg"⟩ ⟨"c64", "image/png"⟩
  exact ⟨h.1.2, (h.2.2.2.1 rfl).1, (h.2.2.2.2.1 rfl).1,
    (h.2.2.2.2.2.1 rfl).2, (h.2.2.2.2.2.2 rfl).2⟩

/-- C5: the headwear instruction follows three mutually exclusive
cases — `remove` yields the removal sentence, `none` yields no
instruction, any other value `v` yields the sentence that the person
should be wearing `v` — and the non-empty instruction appears verbatim
in both the transmitted initial-generation prompt and the transmitted
regeneration prompt (for the wear case, whenever the headwear value is
a tidy phrase). -/
theorem spec_c5 (hat o b l c v : String) :
    (hat = "remove" →
      hatInstruction hat = "If the person is wearing a hat, remove it." ∧
      (hatInstruction hat).data <:+: (buildGenPrompt o hat b l).data ∧
      (hatInstruction hat).data <:+: (buildRegenPrompt o hat b l c v).data) ∧
    (hat = "none" → hatInstruction hat = "") ∧
    (hat ≠ "remove" → hat ≠ "none" →
      hatInstruction hat = "The person should be wearing " ++ hat ++ "." ∧
      (tidy hat.data = true →
        (hatInstruction hat).data <:+: (buildGenPrompt o hat b l).data ∧
        (hatInstruction hat).data <:+: (buildRegenPrompt o hat b l c v).data)) := by
  refine ⟨?_, ?_, ?_⟩
  · intro h
    subst h
    exact ⟨rfl, hat_infix o "remove" b l c v (by decide)⟩
  · intro h
    subst h
    decide
  · intro h1 h2
    have hw : hatInstruction hat = "The person should be wearing " ++ hat ++ "." := by
      unfold hatInstruction
      rw [if_neg h1, if_pos h2]
    refine ⟨hw, fun ht => ?_⟩
    refine hat_infix o hat b l c v ?_
    rw [hw]
    exact tidy_wear ht

/-- C5 witness: the wear case at a concrete headwear value, the other
two cases at their sentinels. -/
theorem spec_c5_witness :
    (hatInstruction "remove" = "If the person is wearing a hat, remove it." ∧
      (hatInstruction "remove").data <:+:
        (buildGenPrompt "a dark suit" "remove" "an office" "soft light").data ∧
      (hatInstruction "remove").data <:+:
        (buildRegenPrompt "a dark suit" "remove" "an office" "soft light" "" "a side view").data) ∧
    (hatInstruction "none" = "") ∧
    (hatInstruction "a red beanie" = "The person should be wearing " ++ "a red beanie" ++ "." ∧
      (hatInstruction "a red beanie").data <:+:
        (buildGenPrompt "a dark suit" "a red beanie" "an office" "soft light").data) := by
  refine ⟨?_, ?_, ?_⟩
  · exact (spec_c5 "remove" "a dark suit" "an office" "soft light" "" "a side view").1 rfl
  · exact (spec_c5 "none" "a dark suit" "an office" "soft light" "" "a side view").2.1 rfl
  · have h := (spec_c5 "a red beanie" "a dark suit" "an office" "soft light" "" "a side view").2.2
      (by decide) (by decide)
    exact ⟨h.1, (h.2 (by decide)).1⟩

/-- C6 counterexample: a whitespace-only custom instruction is
non-empty, yet it is not the change instruction — the trim applied
before the non-emptiness test makes the predefined selection win. -/
theorem spec_c6_cex :
    (" " : String) ≠ "" ∧
    regenChangeInstruction " " "a side profile view" = "a side profile view" ∧
    regenChangeInstruction " " "a side profile view" ≠ " " := by
  refine ⟨by decide, by decide, by decide⟩

/-- C6 as amended: for every custom free-text instruction that is
non-empty after trimming, its trimmed value is the change instruction
used in place of the predefined view selection; it is embedded at the
change position of the prompt template, and it appears in the
transmitted prompt with exactly the prompt-wide whitespace
normalization applied to it (so verbatim whenever its own whitespace is
already normal). -/
theorem spec_c6 (custom sel o hat b l : String)
    (hne : trimJs custom ≠ "") :
    regenChangeInstruction custom sel = trimJs custom ∧
    (trimJs custom).data <:+: (buildRegenPromptRaw o hat b l custom sel).data ∧
    collapseChars (trimJs custom).data <:+: (buildRegenPrompt o hat b l custom sel).data := by
  have hci : regenChangeInstruction custom sel = trimJs custom := by
    unfold regenChangeInstruction
    rw [if_neg hne]
  have hdec := regenRaw_decomp_change o hat b l custom sel
  rw [hci] at hdec
  refine ⟨hci, ⟨regT0.data, _, hdec.symm⟩, ?_⟩
  rw [regenPrompt_data]
  refine infix_collapse_of_head _ hdec (headNonWS_trimChars custom.data) ?_
  have hB : (regT1 ++ o ++ regT2 ++ b ++ regT3 ++ l ++ regT4 ++ hatInstruction hat ++ regT5).data
      = regT1.data ++
        (o ++ regT2 ++ b ++ regT3 ++ l ++ regT4 ++ hatInstruction hat ++ regT5).data := by
    simp only [String.data_append, List.append_assoc]
  rw [hB, headNonWS_append _ (by decide)]
  decide

/-- C6 witness: a custom instruction with surrounding whitespace wins
over a set predefined selection, embedded trimmed. -/
theorem spec_c6_witness :
    regenChangeInstruction " looking left " "a side profile view" =
      trimJs " looking left " ∧
    (trimJs " looking left ").data <:+:
      (buildRegenPromptRaw "a dark suit" "none" "an office" "soft light"
        " looking left " "a side profile view").data ∧
    collapseChars (trimJs " looking left ").data <:+:
      (buildRegenPrompt "a dark suit" "none" "an office" "soft light"
        " looking left " "a side profile view").data :=
  spec_c6 " looking left " "a side profile view" "a dark suit" "none" "an office"
    "soft light" (by decide)

/-- C7: for tidy outfit, background and lighting selections, the
transmitted initial-generation prompt contains each selection verbatim,
has no two consecutive whitespace characters, and neither starts nor
ends with a whitespace character. -/
theorem spec_c7 (o hat b l : String) (hto : tidy o.data = true)
    (htb : tidy b.data = true) (htl : tidy l.data = true) :
    o.data <:+: (buildGenPrompt o hat b l).data ∧
    b.data <:+: (buildGenPrompt o hat b l).data ∧
    l.data <:+: (buildGenPrompt o hat b l).data ∧
    noRun (buildGenPrompt o hat b l).data = true ∧
    headNonWS (buildGenPrompt o hat b l).data = true ∧
    headNonWS (buildGenPrompt o hat b l).data.reverse = true := by
  refine ⟨?_, ?_, ?_, ?_, ?_, ?_⟩
  · rw [genPrompt_data]
    exact infix_collapse_of_eq _ _ (genRaw_decomp_outfit o hat b l) hto
  · rw [genPrompt_data]
    exact infix_collapse_of_eq _ _ (genRaw_decomp_background o hat b l) htb
  · rw [genPrompt_data]
    exact infix_collapse_of_eq _ _ (genRaw_decomp_lighting o hat b l) htl
  · rw [genPrompt_data]
    exact noRun_collapse _
  · rw [genPrompt_data]
    exact headNonWS_collapse (genRaw_ends o hat b l).1
  · rw [genPrompt_data]
    exact collapse_lastNonWS (genRaw_ends o hat b l).2

/-- C7 witness: concrete tidy selections. -/
theorem spec_c7_witness :
    "a dark suit".data <:+:
      (buildGenPrompt "a dark suit" "none" "an office" "soft studio lighting").data ∧
    "an office".data <:+:
      (buildGenPrompt "a dark suit" "none" "an office" "soft studio lighting").data ∧
    "soft studio lighting".data <:+:
      (buildGenPrompt "a dark suit" "none" "an office" "soft studio lighting").data ∧
    noRun (buildGenPrompt "a dark suit" "none" "an office" "soft studio lighting").data = true ∧
    headNonWS (buildGenPrompt "a dark suit" "none" "an office" "soft studio lighting").data = true ∧
    headNonWS (buildGenPrompt "a dark suit" "none" "an office" "soft studio lighting").data.reverse = true :=
  spec_c7 "a dark suit" "none" "an office" "soft studio lighting"
    (by decide) (by decide) (by decide)

/-- C8: when the precondition holds, both triggering controls are
disabled in the state at the moment the request is issued, and are
re-enabled in the final state for every possible completion of the
request — success, empty response, or transport failure alike. -/
theorem spec_c8 (s : AppState) (net : Except Unit GenResponse)
    (up cur : ImagePayload) :
    (s.uploadedImage = some up →
      ∃ mid, (generateHeadshot s net).inFlight = some mid ∧
        mid.generateBtnDisabled = true ∧ mid.regenerateBtnDisabled = true ∧
        (generateHeadshot s net).state.generateBtnDisabled = false ∧
        (generateHeadshot s net).state.regenerateBtnDisabled = false) ∧
    (s.currentResultImage = some cur →
      ∃ mid, (regenerateView s net).inFlight = some mid ∧
        mid.generateBtnDisabled = true ∧ mid.regenerateBtnDisabled = true ∧
        (regenerateView s net).state.generateBtnDisabled = false ∧
        (regenerateView s net).state.regenerateBtnDisabled = false) := by
  constructor
  · intro h
    unfold generateHeadshot
    rw [h]
    exact ⟨_, rfl, rfl, rfl, rfl, rfl⟩
  · intro h
    unfold regenerateView
    rw [h]
    exact ⟨_, rfl, rfl, rfl, rfl, rfl⟩

/-- C8 witness: the discipline at the occupied fixture state under a
transport failure. -/
theorem spec_c8_witness :
    (∃ mid, (generateHeadshot wState (.error ())).inFlight = some mid ∧
      mid.generateBtnDisabled = true ∧ mid.regenerateBtnDisabled = true ∧
      (generateHeadshot wState (.error ())).state.generateBtnDisabled = false ∧
      (generateHeadshot wState (.error ())).state.regenerateBtnDisabled = false) ∧
    (∃ mid, (regenerateView wState (.error ())).inFlight = some mid ∧
      mid.generateBtnDisabled = true ∧ mid.regenerateBtnDisabled = true ∧
      (regenerateView wState (.error ())).state.generateBtnDisabled = false ∧
      (regenerateView wState (.error ())).state.regenerateBtnDisabled = false) :=
  ⟨(spec_c8 wState (.error ()) ⟨"u64", "image/jpeg"⟩ ⟨"c64", "image/png"⟩).1 rfl,
   (spec_c8 wState (.error ()) ⟨"u64", "image/jpeg"⟩ ⟨"c64", "image/png"⟩).2 rfl⟩

/-- C9: from every prior state, start-over shows the placeholder view
and clears both session-state slots. -/
theorem spec_c9 (s : AppState) :
    (resetToInitialState s).view = View.placeholder ∧
    (resetToInitialState s).uploadedImage = none ∧
    (resetToInitialState s).currentResultImage = none :=
  ⟨rfl, rfl, rfl⟩

/-- C10: a custom view input consisting only of whitespace characters
(the empty string included) behaves as if no custom instruction were
given — the change instruction is the predefined view selection, and
the transmitted regeneration prompt equals the one built with an empty
custom input. -/
theorem spec_c10 (custom sel o hat b l : String)
    (hws : custom.data.all isJsWS = true) :
    regenChangeInstruction custom sel = sel ∧
    buildRegenPrompt o hat b l custom sel = buildRegenPrompt o hat b l "" sel := by
  have htrim : trimJs custom = "" := by
    show (⟨trimChars custom.data⟩ : String) = ""
    rw [trimChars_of_all_ws (by simpa [List.all_eq_true] using hws)]
  have hci : regenChangeInstruction custom sel = sel := by
    unfold regenChangeInstruction
    rw [htrim, if_pos rfl]
  have hci0 : regenChangeInstruction "" sel = sel := by
    unfold regenChangeInstruction
    rw [show trimJs "" = "" from by decide, if_pos rfl]
  refine ⟨hci, ?_⟩
  unfold buildRegenPrompt buildRegenPromptRaw
  rw [hci, hci0]

/-- C10 witness: a single-space custom input defers to the predefined
selection. -/
theorem spec_c10_witness :
    regenChangeInstruction " " "a side profile view" = "a side profile view" ∧
    buildRegenPrompt "a dark suit" "none" "an office" "soft light" " " "a side profile view" =
      buildRegenPrompt "a dark suit" "none" "an office" "soft light" "" "a side profile view" :=
  spec_c10 " " "a side profile view" "a dark suit" "none" "an office" "soft light" (by decide)
